import Mathlib

/-!
# Verification of the expenditure-helper statement-to-ledger pipeline

This development embeds the upload/preview/commit pipeline of the
expenditure-helper repository and proves (or refutes) the specified
properties about it.

The frontend (TypeScript) is embedded directly from its source files:
`src/frontend/src/lib/api.ts` (`ApiClient.request`), the extended API
client (`ApiClient.prepareEntries`, `ApiClient.batchCreateTransactions`),
`src/frontend/src/hooks/useUploadFlow.ts` (`UploadFlowState`),
`src/frontend/src/pages/upload/ConfirmationStage.tsx` (`handleConfirm`),
`src/frontend/src/components/ConfirmationStep.tsx` (the confirm button
guard) and `src/frontend/src/components/EntryPreview.tsx` (amount sums).

The backend entry-generation service (EntryGenerator, BalanceValidator,
prepare/create endpoints, batch persistence) is not part of the source
tree; those parts are modelled from the specification, and every such
definition is marked `Modelled from the spec:` in its doc comment.

JavaScript numbers that carry monetary amounts are embedded as exact
rationals (ℚ) denoting the decimal literals that flow through the
pipeline; integer ids are embedded as ℕ and backend minor-unit amounts
as ℤ.
-/

/-- Entry direction of a posting, `'debit' | 'credit'` in the sources. -/
inductive EntryType where
  | debit
  | credit
deriving DecidableEq, Repr

/-- `ApiError` from `src/frontend/src/lib/api.ts`: every failure thrown by
the API client carries a message and a numeric status. -/
structure ApiError where
  message : String
  status : Nat
deriving DecidableEq, Repr

/-- Outcome of one `fetch` call as observed by `ApiClient.request`:
either the fetch itself failed (network error, unreachable server), or a
response arrived with a status code, a status text, an `ok` flag, and a
body whose JSON parse either succeeded (`some v`) or failed (`none`). -/
inductive FetchOutcome (T : Type) where
  | failure
  | response (status : Nat) (statusText : String) (ok : Bool) (body : Option T)

namespace ApiClient

/-- `ApiClient.request` from `src/frontend/src/lib/api.ts` (the identical
code also appears in the extended client): on a non-ok response it throws
`{message: 'API Error: ' + statusText, status}`; that throw is caught by
the surrounding catch, which rethrows any error with a truthy `status`
and replaces everything else with `{message: 'Network error', status: 0}`;
on an ok response it returns the parsed JSON body. -/
def request {T : Type} : FetchOutcome T → Except ApiError T
  | .failure => .error ⟨"Network error", 0⟩
  | .response status statusText ok body =>
    if ok then
      match body with
      | some v => .ok v
      | none => .error ⟨"Network error", 0⟩
    else
      let e : ApiError := ⟨"API Error: " ++ statusText, status⟩
      if e.status ≠ 0 then .error e else .error ⟨"Network error", 0⟩

/-- Endpoint used by `ApiClient.prepareEntries` in the extended API client:
the preview ("dry run") path of the upload flow posts to this endpoint. -/
def prepareEntriesEndpoint : String := "/statements/create-entries"

/-- Endpoint used by `ApiClient.batchCreateTransactions`. -/
def batchCreateEndpoint : String := "/transactions/batch"

end ApiClient

/-- One entry of a previewed transaction, as returned by the backend
prepare/create-entries response and stored in the upload flow state
(`PrepareEntriesResponse` in `src/frontend/src/lib/types`): the amount is
a decimal dollar number. -/
structure PreviewEntry where
  account_id : Nat
  account_name : String
  entry_type : EntryType
  amount : ℚ
  description : String
deriving DecidableEq, Repr

/-- One previewed transaction of a `PrepareEntriesResponse`. -/
structure PreviewTransaction where
  description : String
  transaction_date : String
  entries : List PreviewEntry
deriving DecidableEq, Repr

/-- The preview result stored by the upload flow
(`PrepareEntriesResponse`): summary totals are decimal dollar numbers and
`is_balanced` is a stored boolean flag. -/
structure PrepareEntriesResponse where
  statement_id : Nat
  statement_filename : String
  transactions : List PreviewTransaction
  total_transactions : Nat
  total_debits : ℚ
  total_credits : ℚ
  is_balanced : Bool
deriving DecidableEq, Repr

/-- One entry of a batch-create request built by
`ConfirmationStage.handleConfirm`. -/
structure CreateEntryRequest where
  account_id : Nat
  amount : ℚ
  entry_type : EntryType
  description : String
deriving DecidableEq, Repr

/-- One transaction of the batch-create request
(`CreateTransactionRequest` in the frontend types). -/
structure CreateTransactionRequest where
  user_id : Nat
  description : String
  transaction_date : String
  entries : List CreateEntryRequest
deriving DecidableEq, Repr

/-- The upload flow state from `src/frontend/src/hooks/useUploadFlow.ts`;
it is saved to `localStorage` on every change and reloaded on mount, so
it persists between the preview call and the commit call. -/
structure UploadFlowState where
  processingId : Option Nat
  statementId : Option Nat
  preview : Option PrepareEntriesResponse
  selectedCreditCardAccountId : Option Nat
  selectedDefaultExpenseAccountId : Option Nat
  totalCreatedTransactions : Nat
  totalCreatedEntries : Nat
deriving DecidableEq, Repr

/-- The batch-create request built by `handleConfirm` in
`src/frontend/src/pages/upload/ConfirmationStage.tsx`: if the user id is
missing (null or 0, both falsy in JS) or no preview is stored, the
handler bails out with an error (`none`); otherwise it maps the stored
preview's transactions as-is into `CreateTransactionRequest`s (comment in
the source: "Create transactions as-is from preview result") and sends
them to `ApiClient.batchCreateTransactions`. -/
def handleConfirmRequest (userId : Option Nat) (state : UploadFlowState) :
    Option (List CreateTransactionRequest) :=
  match userId, state.preview with
  | some uid, some preview =>
    if uid = 0 then none
    else
      some (preview.transactions.map fun t =>
        { user_id := uid
          description := t.description
          transaction_date := t.transaction_date
          entries := t.entries.map fun e =>
            { account_id := e.account_id
              amount := e.amount
              entry_type := e.entry_type
              description := e.description } })
  | _, _ => none

/-- The `disabled` condition of the "Confirm & Create" button in
`src/frontend/src/components/ConfirmationStep.tsx`
(`disabled={isCreating || !preview.is_balanced}`); `handleConfirm` can
only be triggered through this button in the confirmation stage. -/
def confirmButtonDisabled (isCreating : Bool) (preview : PrepareEntriesResponse) : Bool :=
  isCreating || !preview.is_balanced

/-- The per-transaction amount computed by `EntryPreview.tsx`
(`entries.reduce((sum, entry) => sum + entry.amount, 0)`), used both as
the amount sort key and as the displayed transaction total. -/
def entriesAmountSum (t : PreviewTransaction) : ℚ :=
  t.entries.foldl (fun sum e => sum + e.amount) 0

/-- C10: behaviour of `ApiClient.request` on every possible fetch
outcome: a received non-ok response yields an `ApiError` carrying that
response's status code; a network failure or a JSON parse failure yields
`{message: 'Network error', status: 0}`; an ok response with a parsed
body returns that body. -/
theorem apiClient_request_error_taxonomy {T : Type} (status : Nat)
    (statusText : String) (body : Option T) (v : T) :
    (∃ m, ApiClient.request (.response status statusText false body)
        = Except.error ⟨m, status⟩)
    ∧ (@ApiClient.request T .failure = Except.error ⟨"Network error", 0⟩)
    ∧ (ApiClient.request (.response status statusText true (none : Option T))
        = Except.error ⟨"Network error", 0⟩)
    ∧ (ApiClient.request (.response status statusText true (some v)) = Except.ok v) := by
  refine ⟨?_, rfl, rfl, rfl⟩
  by_cases h : status = 0
  · exact ⟨"Network error", by simp [ApiClient.request, h]⟩
  · exact ⟨"API Error: " ++ statusText, by simp [ApiClient.request, h]⟩

/-- Totals of debit amounts across previewed transactions, recomputed
from the entries following the spec's BalanceValidator wording ("sums all
debit amounts ... across every posting in every transaction"); used to
compare the stored `is_balanced` flag against a recomputation. -/
def specRecomputedDebits (ts : List PreviewTransaction) : ℚ :=
  (ts.map fun t =>
    ((t.entries.filter fun e => e.entry_type = EntryType.debit).map
      fun e => e.amount).sum).sum

/-- Totals of credit amounts across previewed transactions, recomputed
from the entries following the spec's BalanceValidator wording. -/
def specRecomputedCredits (ts : List PreviewTransaction) : ℚ :=
  (ts.map fun t =>
    ((t.entries.filter fun e => e.entry_type = EntryType.credit).map
      fun e => e.amount).sum).sum

/-- A stored preview as produced by the documented pipeline: one
purchase of 24.31 debited to the Food account (21) and credited to the
credit-card account (10). -/
def previewA : PrepareEntriesResponse :=
  { statement_id := 1
    statement_filename := "SEP 2025.pdf"
    transactions :=
      [{ description := "PAYPAL *YAOHUBA666 4029357733"
         transaction_date := "2025-08-06"
         entries :=
           [{ account_id := 21, account_name := "Food", entry_type := .debit
              amount := 2431 / 100, description := "PAYPAL *YAOHUBA666 4029357733" },
            { account_id := 10, account_name := "UOB Credit Card", entry_type := .credit
              amount := 2431 / 100, description := "PAYPAL *YAOHUBA666 4029357733" }]}]
    total_transactions := 1
    total_debits := 2431 / 100
    total_credits := 2431 / 100
    is_balanced := true }

/-- A different stored preview for the same statement and the same
selected accounts (e.g. left over from an earlier preview call whose
inputs have since changed): a single 100.00 payment row. -/
def previewB : PrepareEntriesResponse :=
  { statement_id := 1
    statement_filename := "SEP 2025.pdf"
    transactions :=
      [{ description := "UOB ONE CASH REBATE BILL REDEMPTION"
         transaction_date := "2025-09-12"
         entries :=
           [{ account_id := 10, account_name := "UOB Credit Card", entry_type := .debit
              amount := 100, description := "UOB ONE CASH REBATE BILL REDEMPTION" },
            { account_id := 5, account_name := "Bank Account", entry_type := .credit
              amount := 100, description := "UOB ONE CASH REBATE BILL REDEMPTION" }]}]
    total_transactions := 1
    total_debits := 100
    total_credits := 100
    is_balanced := true }

/-- Flow state holding `previewA`, with statement 1 and accounts 10/20
selected. -/
def flowStateA : UploadFlowState :=
  { processingId := none
    statementId := some 1
    preview := some previewA
    selectedCreditCardAccountId := some 10
    selectedDefaultExpenseAccountId := some 20
    totalCreatedTransactions := 0
    totalCreatedEntries := 0 }

/-- Flow state identical to `flowStateA` in every input field, holding
the cached `previewB` instead. -/
def flowStateB : UploadFlowState :=
  { flowStateA with preview := some previewB }

/-- C2 counterexample: the commit call does use state cached between the
preview call and the commit call — two flow states that agree on every
input (statement id, selected credit-card and default-expense accounts,
user id 7) but hold different stored previews produce different
batch-create requests, so the persisted postings are replayed from the
stored preview rather than recomputed from the inputs. -/
theorem commit_uses_cached_preview_counterexample :
    flowStateA.statementId = flowStateB.statementId
    ∧ flowStateA.selectedCreditCardAccountId = flowStateB.selectedCreditCardAccountId
    ∧ flowStateA.selectedDefaultExpenseAccountId = flowStateB.selectedDefaultExpenseAccountId
    ∧ handleConfirmRequest (some 7) flowStateA ≠ handleConfirmRequest (some 7) flowStateB := by
  refine ⟨rfl, rfl, rfl, ?_⟩
  decide

/-- C2 (amended): the commit call replays the stored preview saved
between the preview call and the commit call: whenever a user id and a
stored preview are present, `handleConfirm` sends exactly one
`CreateTransactionRequest` per stored preview transaction, carrying the
stored description, date and entries (account id, amount, entry type,
description) unchanged with the user id attached; nothing is regenerated
or revalidated from the statement or account inputs. -/
theorem commit_replays_stored_preview (uid : Nat) (state : UploadFlowState)
    (preview : PrepareEntriesResponse) (huid : uid ≠ 0)
    (hprev : state.preview = some preview) :
    ∃ reqs, handleConfirmRequest (some uid) state = some reqs
      ∧ List.Forall₂ (fun (r : CreateTransactionRequest) (t : PreviewTransaction) =>
          r.user_id = uid ∧ r.description = t.description
          ∧ r.transaction_date = t.transaction_date
          ∧ List.Forall₂ (fun (e : CreateEntryRequest) (pe : PreviewEntry) =>
              e.account_id = pe.account_id ∧ e.amount = pe.amount
              ∧ e.entry_type = pe.entry_type ∧ e.description = pe.description)
            r.entries t.entries)
        reqs preview.transactions := by
  have h : handleConfirmRequest (some uid) state
      = some (preview.transactions.map fun t =>
          { user_id := uid
            description := t.description
            transaction_date := t.transaction_date
            entries := t.entries.map fun e =>
              { account_id := e.account_id
                amount := e.amount
                entry_type := e.entry_type
                description := e.description } }) := by
    simp [handleConfirmRequest, hprev, huid]
  refine ⟨_, h, ?_⟩
  rw [List.forall₂_map_left_iff, List.forall₂_same]
  intro t _
  refine ⟨rfl, rfl, rfl, ?_⟩
  rw [List.forall₂_map_left_iff, List.forall₂_same]
  intro e _
  exact ⟨rfl, rfl, rfl, rfl⟩

/-- Witness for `commit_replays_stored_preview` at user 7 and
`flowStateA`. -/
theorem commit_replays_stored_preview_witness :
    ∃ reqs, handleConfirmRequest (some 7) flowStateA = some reqs
      ∧ List.Forall₂ (fun (r : CreateTransactionRequest) (t : PreviewTransaction) =>
          r.user_id = 7 ∧ r.description = t.description
          ∧ r.transaction_date = t.transaction_date
          ∧ List.Forall₂ (fun (e : CreateEntryRequest) (pe : PreviewEntry) =>
              e.account_id = pe.account_id ∧ e.amount = pe.amount
              ∧ e.entry_type = pe.entry_type ∧ e.description = pe.description)
            r.entries t.entries)
        reqs previewA.transactions :=
  commit_replays_stored_preview 7 flowStateA previewA (by decide) rfl

/-- A stored preview whose `is_balanced` flag claims balance while its
entries do not balance (total debits 10, total credits 7). Such a state
is reachable as commit input because the upload flow state, including the
preview and its flag, is persisted in `localStorage` between the preview
call and the commit call and is trusted as-is by the confirmation
stage. -/
def staleFlaggedPreview : PrepareEntriesResponse :=
  { statement_id := 1
    statement_filename := "SEP 2025.pdf"
    transactions :=
      [{ description := "MISMATCHED ROW"
         transaction_date := "2025-08-06"
         entries :=
           [{ account_id := 21, account_name := "Food", entry_type := .debit
              amount := 10, description := "MISMATCHED ROW" },
            { account_id := 10, account_name := "UOB Credit Card", entry_type := .credit
              amount := 7, description := "MISMATCHED ROW" }]}]
    total_transactions := 1
    total_debits := 10
    total_credits := 7
    is_balanced := true }

/-- Flow state holding `staleFlaggedPreview` at the confirmation stage. -/
def staleFlaggedState : UploadFlowState :=
  { processingId := none
    statementId := some 1
    preview := some staleFlaggedPreview
    selectedCreditCardAccountId := some 10
    selectedDefaultExpenseAccountId := some 20
    totalCreatedTransactions := 0
    totalCreatedEntries := 0 }

/-- C8 counterexample: commit is not gated on a recomputed balance — for
a stored preview whose `is_balanced` flag is `true` but whose entries do
not balance (recomputing the totals gives unequal debits and credits),
the confirm button is enabled and `handleConfirm` produces a persisting
batch request anyway; so "persists only when the recomputed BatchResult
has is_balanced = true" fails. -/
theorem commit_gate_not_recomputed_counterexample :
    confirmButtonDisabled false staleFlaggedPreview = false
    ∧ specRecomputedDebits staleFlaggedPreview.transactions
        ≠ specRecomputedCredits staleFlaggedPreview.transactions
    ∧ (handleConfirmRequest (some 7) staleFlaggedState).isSome = true := by
  refine ⟨rfl, ?_, rfl⟩
  have hd : specRecomputedDebits staleFlaggedPreview.transactions = 10 := by
    simp [specRecomputedDebits, staleFlaggedPreview]
  have hc : specRecomputedCredits staleFlaggedPreview.transactions = 7 := by
    simp [specRecomputedCredits, staleFlaggedPreview]
  rw [hd, hc]
  norm_num

/-- C8 (amended): commit is gated on the stored preview's `is_balanced`
flag, not on a recomputation: the confirm button that triggers
`handleConfirm` is enabled only when no creation is in progress and the
stored flag is `true`. -/
theorem commit_gated_on_stored_flag (isCreating : Bool)
    (preview : PrepareEntriesResponse)
    (h : confirmButtonDisabled isCreating preview = false) :
    preview.is_balanced = true ∧ isCreating = false := by
  unfold confirmButtonDisabled at h
  constructor
  · cases hb : preview.is_balanced
    · rw [hb] at h; simp at h
    · rfl
  · cases hc : isCreating
    · rfl
    · rw [hc] at h; simp at h

/-- Witness for `commit_gated_on_stored_flag` at `previewA`, whose
stored flag is `true` and whose button is enabled. -/
theorem commit_gated_on_stored_flag_witness :
    previewA.is_balanced = true ∧ false = false :=
  commit_gated_on_stored_flag false previewA (by decide)

/-- C5 counterexample: monetary amounts in the preview/commit pipeline
are not integer counts of minor units — the commit request built from the
documented preview carries the amount 24.31 (the decimal dollar value
2431/100, which is not an integer, so the stored number is not an
integer count of anything), and the frontend's transaction sum over
those entries is 48.62 (2431/50), also not an integer. -/
theorem amounts_not_integer_minor_units_counterexample :
    ((handleConfirmRequest (some 7) flowStateA).map fun reqs =>
        reqs.map fun r => r.entries.map fun e => e.amount)
      = some [[2431 / 100, 2431 / 100]]
    ∧ (¬ ∃ n : ℤ, (2431 / 100 : ℚ) = (n : ℚ))
    ∧ previewA.transactions.map entriesAmountSum = [2431 / 50]
    ∧ (¬ ∃ n : ℤ, (2431 / 50 : ℚ) = (n : ℚ)) := by
  refine ⟨rfl, ?_, ?_, ?_⟩
  · rintro ⟨n, hn⟩
    have h : (2431 : ℚ) = 100 * (n : ℚ) := by
      field_simp at hn
      linarith
    have h2 : (2431 : ℤ) = 100 * n := by exact_mod_cast h
    omega
  · have : entriesAmountSum
        { description := "PAYPAL *YAOHUBA666 4029357733"
          transaction_date := "2025-08-06"
          entries :=
            [{ account_id := 21, account_name := "Food", entry_type := .debit
               amount := 2431 / 100, description := "PAYPAL *YAOHUBA666 4029357733" },
             { account_id := 10, account_name := "UOB Credit Card", entry_type := .credit
               amount := 2431 / 100, description := "PAYPAL *YAOHUBA666 4029357733" }] }
        = 2431 / 50 := by
      simp [entriesAmountSum]
      norm_num
    simpa [previewA] using this
  · rintro ⟨n, hn⟩
    have h : (2431 : ℚ) = 50 * (n : ℚ) := by
      field_simp at hn
      linarith
    have h2 : (2431 : ℤ) = 50 * n := by exact_mod_cast h
    omega

/-- C5 (amended): monetary amounts in the preview/commit pipeline are
decimal numbers denominated in dollars (possibly with a fractional part,
e.g. 24.31); the commit path forwards every stored preview amount to the
batch-create request unchanged, with no conversion to an integer count
of minor units. -/
theorem commit_forwards_decimal_amounts (uid : Nat) (state : UploadFlowState)
    (preview : PrepareEntriesResponse) (huid : uid ≠ 0)
    (hprev : state.preview = some preview) :
    ((handleConfirmRequest (some uid) state).map fun reqs =>
        reqs.map fun r => r.entries.map fun e => e.amount)
      = some (preview.transactions.map fun t => t.entries.map fun e => e.amount) := by
  simp [handleConfirmRequest, hprev, huid, List.map_map, Function.comp]

/-- Witness for `commit_forwards_decimal_amounts` at user 7 and
`flowStateA`. -/
theorem commit_forwards_decimal_amounts_witness :
    ((handleConfirmRequest (some 7) flowStateA).map fun reqs =>
        reqs.map fun r => r.entries.map fun e => e.amount)
      = some (previewA.transactions.map fun t => t.entries.map fun e => e.amount) :=
  commit_forwards_decimal_amounts 7 flowStateA previewA (by decide) rfl

/-- Modelled from the spec: `RawStatementTransaction` (§3), the immutable
input row produced by the statement parsing collaborator; the backend
entry-generation service that consumes it is not in the source tree.
Amounts are signed integer counts of minor units. -/
structure RawStatementTransaction where
  description : String
  transaction_date : String
  amount : ℤ
  category : Option String
deriving DecidableEq, Repr

/-- Modelled from the spec: one category-to-account mapping of
`AccountRoleConfig.category_mappings` (§3). -/
structure CategoryMapping where
  category : String
  account_id : Nat
deriving DecidableEq, Repr

/-- Modelled from the spec: `AccountRoleConfig` (§3), the per-invocation
account-resolution configuration. -/
structure AccountRoleConfig where
  credit_card_account_id : Nat
  default_expense_account_id : Nat
  bank_account_id : Option Nat
  category_mappings : List CategoryMapping
deriving DecidableEq, Repr

/-- Modelled from the spec: `resolveCategory` (§4.2) of the
AccountResolver, which is not in the source tree — case-sensitive exact
lookup of the category in `category_mappings`; an absent or empty
category returns `default_expense_account_id`; never fails. -/
def resolveCategory (category : Option String) (config : AccountRoleConfig) : Nat :=
  match category with
  | none => config.default_expense_account_id
  | some c =>
    if c = "" then config.default_expense_account_id
    else
      match config.category_mappings.find? (fun m => m.category = c) with
      | some m => m.account_id
      | none => config.default_expense_account_id

/-- Modelled from the spec: the per-row failures of the entry generator
(§7) that the embedding needs: `DegenerateTransaction` for zero-amount
rows and `AccountNotFound` for an account id missing from the user's
account set. -/
inductive GenError where
  | DegenerateTransaction
  | AccountNotFound (id : Nat)
deriving DecidableEq, Repr

/-- Modelled from the spec: `Posting` (§3) as produced by the backend
generator — a single debit or credit line with a resolved account name
and a non-negative minor-unit amount. -/
structure Posting where
  account_id : Nat
  account_name : String
  entry_type : EntryType
  amount : ℤ
  description : String
deriving DecidableEq, Repr

/-- Modelled from the spec: `GeneratedTransaction` (§3), one per raw
statement row, carrying the original description and date. -/
structure GeneratedTransaction where
  description : String
  transaction_date : String
  postings : List Posting
deriving DecidableEq, Repr

/-- Modelled from the spec: `accountName` (§4.2) — delegated lookup of
the display name for an account id in the calling user's account set
(here a list of id-name pairs); fails with `AccountNotFound` when the id
does not exist. -/
def accountName (accounts : List (Nat × String)) (id : Nat) : Except GenError String :=
  match accounts.find? (fun a => a.1 = id) with
  | some a => .ok a.2
  | none => .error (.AccountNotFound id)

/-- Modelled from the spec: finalization step of the EntryGenerator
(§4.3), which is not in the source tree — validates both account names
via `accountName` before any posting is finalized, then produces the
deterministic posting pair (debit first, then credit), each posting
carrying `abs(amount)` and the original description. -/
def mkGenerated (accounts : List (Nat × String)) (tx : RawStatementTransaction)
    (debitId creditId : Nat) : Except GenError GeneratedTransaction :=
  match accountName accounts debitId, accountName accounts creditId with
  | .ok debitName, .ok creditName =>
    .ok { description := tx.description
          transaction_date := tx.transaction_date
          postings :=
            [{ account_id := debitId, account_name := debitName, entry_type := .debit
               amount := |tx.amount|, description := tx.description },
             { account_id := creditId, account_name := creditName, entry_type := .credit
               amount := |tx.amount|, description := tx.description }] }
  | .error e, _ => .error e
  | .ok _, .error e => .error e

/-- Modelled from the spec: the EntryGenerator core algorithm (§4.3),
which is not in the source tree. Branch on the sign of the amount: a
zero amount fails with `DegenerateTransaction`; a positive amount debits
the resolved expense account and credits the credit-card account; a
negative amount debits the credit-card account and credits the bank
account when configured, else the resolved category account. -/
def generateEntries (accounts : List (Nat × String)) (config : AccountRoleConfig)
    (tx : RawStatementTransaction) : Except GenError GeneratedTransaction :=
  if tx.amount = 0 then .error .DegenerateTransaction
  else if 0 < tx.amount then
    mkGenerated accounts tx (resolveCategory tx.category config) config.credit_card_account_id
  else
    mkGenerated accounts tx config.credit_card_account_id
      (config.bank_account_id.getD (resolveCategory tx.category config))

/-- A successful `mkGenerated` call produced exactly the debit-credit
posting pair for the requested accounts, with both account names
resolved. -/
theorem mkGenerated_ok (accounts : List (Nat × String)) (tx : RawStatementTransaction)
    (debitId creditId : Nat) (g : GeneratedTransaction)
    (h : mkGenerated accounts tx debitId creditId = .ok g) :
    ∃ dn cn, accountName accounts debitId = .ok dn
      ∧ accountName accounts creditId = .ok cn
      ∧ g = { description := tx.description
              transaction_date := tx.transaction_date
              postings :=
                [{ account_id := debitId, account_name := dn, entry_type := .debit
                   amount := |tx.amount|, description := tx.description },
                 { account_id := creditId, account_name := cn, entry_type := .credit
                   amount := |tx.amount|, description := tx.description }] } := by
  unfold mkGenerated at h
  cases hd : accountName accounts debitId with
  | error e => rw [hd] at h; simp at h
  | ok dn =>
    cases hc : accountName accounts creditId with
    | error e => rw [hd, hc] at h; simp at h
    | ok cn =>
      rw [hd, hc] at h
      injection h with h2
      exact ⟨dn, cn, rfl, rfl, h2.symm⟩

/-- Sum of the debit amounts of a posting list. -/
def debitTotal (ps : List Posting) : ℤ :=
  ((ps.filter fun p => p.entry_type = EntryType.debit).map fun p => p.amount).sum

/-- Sum of the credit amounts of a posting list. -/
def creditTotal (ps : List Posting) : ℤ :=
  ((ps.filter fun p => p.entry_type = EntryType.credit).map fun p => p.amount).sum

/-- Sum of debit amounts across every posting of every transaction. -/
def totalDebits (txs : List GeneratedTransaction) : ℤ :=
  (txs.map fun t => debitTotal t.postings).sum

/-- Sum of credit amounts across every posting of every transaction. -/
def totalCredits (txs : List GeneratedTransaction) : ℤ :=
  (txs.map fun t => creditTotal t.postings).sum

/-- Modelled from the spec: `BatchResult` (§3), the derived read-only
summary recomputed on every invocation. -/
structure BatchResult where
  transactions : List GeneratedTransaction
  total_debits : ℤ
  total_credits : ℤ
  is_balanced : Bool
deriving DecidableEq, Repr

/-- Modelled from the spec: the BalanceValidator (§4.4), not in the
source tree — sums all debit and all credit amounts across every posting
in every transaction and sets `is_balanced` by exact equality. -/
def validate (txs : List GeneratedTransaction) : BatchResult :=
  { transactions := txs
    total_debits := totalDebits txs
    total_credits := totalCredits txs
    is_balanced := decide (totalDebits txs = totalCredits txs) }

/-- Modelled from the spec: per-row batch processing (§4.5/§7) — each
row runs through the generator; a `DegenerateTransaction` row is counted
as skipped and the batch continues; any other per-row failure is
reported and the batch continues; successful rows are collected in
order. -/
def processRows (accounts : List (Nat × String)) (config : AccountRoleConfig) :
    List RawStatementTransaction → List GeneratedTransaction × Nat × List GenError
  | [] => ([], 0, [])
  | tx :: rest =>
    let r := processRows accounts config rest
    match generateEntries accounts config tx with
    | .ok g => (g :: r.1, r.2.1, r.2.2)
    | .error .DegenerateTransaction => (r.1, r.2.1 + 1, r.2.2)
    | .error e => (r.1, r.2.1, e :: r.2.2)

/-- Modelled from the spec: the outcome reported for a batch — the
validated `BatchResult` over the successfully generated transactions,
the count of skipped (zero-amount) rows, distinguishable from processed
rows, and the other per-row failures. -/
structure BatchOutcome where
  result : BatchResult
  skipped : Nat
  row_errors : List GenError
deriving DecidableEq, Repr

/-- Modelled from the spec: the preview computation of the
PreviewCommitCoordinator (§4.5) — run the generator over every row, then
the validator over the successful ones. -/
def processBatch (accounts : List (Nat × String)) (config : AccountRoleConfig)
    (rows : List RawStatementTransaction) : BatchOutcome :=
  let r := processRows accounts config rows
  { result := validate r.1, skipped := r.2.1, row_errors := r.2.2 }

/-- Every transaction the generator returns successfully has equal debit
and credit totals. -/
theorem generateEntries_ok_balanced (accounts : List (Nat × String))
    (config : AccountRoleConfig) (tx : RawStatementTransaction)
    (g : GeneratedTransaction) (h : generateEntries accounts config tx = .ok g) :
    debitTotal g.postings = creditTotal g.postings := by
  unfold generateEntries at h
  by_cases h0 : tx.amount = 0
  · rw [if_pos h0] at h
    simp at h
  · rw [if_neg h0] at h
    by_cases hpos : 0 < tx.amount
    · rw [if_pos hpos] at h
      obtain ⟨dn, cn, _, _, rfl⟩ := mkGenerated_ok _ _ _ _ _ h
      simp [debitTotal, creditTotal]
    · rw [if_neg hpos] at h
      obtain ⟨dn, cn, _, _, rfl⟩ := mkGenerated_ok _ _ _ _ _ h
      simp [debitTotal, creditTotal]

/-- The transactions collected by batch processing always balance in
aggregate, because each collected transaction balances. -/
theorem processRows_balanced (accounts : List (Nat × String))
    (config : AccountRoleConfig) (rows : List RawStatementTransaction) :
    totalDebits (processRows accounts config rows).1
      = totalCredits (processRows accounts config rows).1 := by
  induction rows with
  | nil => rfl
  | cons tx rest ih =>
    unfold processRows
    cases hg : generateEntries accounts config tx with
    | ok g =>
      simp only [hg, totalDebits, totalCredits, List.map_cons, List.sum_cons]
      rw [generateEntries_ok_balanced accounts config tx g hg]
      simpa [totalDebits, totalCredits] using congrArg (creditTotal g.postings + ·) ih
    | error e =>
      cases e with
      | DegenerateTransaction => simpa [hg] using ih
      | AccountNotFound id => simpa [hg] using ih

/-- Sample account set used to instantiate the generator theorems. -/
def sampleAccounts : List (Nat × String) :=
  [(5, "Bank Account"), (10, "UOB Credit Card"), (20, "General Expenses"), (21, "Food")]

/-- Sample account-role configuration: credit card 10, default expense
20, bank 5, category "Food" mapped to 21. -/
def sampleConfig : AccountRoleConfig :=
  { credit_card_account_id := 10
    default_expense_account_id := 20
    bank_account_id := some 5
    category_mappings := [{ category := "Food", account_id := 21 }] }

/-- Sample purchase row: amount 24.31 (2431 minor units), category
"Food". -/
def samplePurchase : RawStatementTransaction :=
  { description := "PAYPAL *YAOHUBA666 4029357733"
    transaction_date := "2025-08-06"
    amount := 2431
    category := some "Food" }

/-- The transaction the generator produces for `samplePurchase`. -/
def samplePurchaseGenerated : GeneratedTransaction :=
  { description := "PAYPAL *YAOHUBA666 4029357733"
    transaction_date := "2025-08-06"
    postings :=
      [{ account_id := 21, account_name := "Food", entry_type := .debit
         amount := 2431, description := "PAYPAL *YAOHUBA666 4029357733" },
       { account_id := 10, account_name := "UOB Credit Card", entry_type := .credit
         amount := 2431, description := "PAYPAL *YAOHUBA666 4029357733" }] }

/-- Sample payment/refund row: amount -100.00 (-10000 minor units). -/
def sampleRefund : RawStatementTransaction :=
  { description := "UOB ONE CASH REBATE BILL REDEMPTION"
    transaction_date := "2025-09-12"
    amount := -10000
    category := none }

/-- The transaction the generator produces for `sampleRefund`. -/
def sampleRefundGenerated : GeneratedTransaction :=
  { description := "UOB ONE CASH REBATE BILL REDEMPTION"
    transaction_date := "2025-09-12"
    postings :=
      [{ account_id := 10, account_name := "UOB Credit Card", entry_type := .debit
         amount := 10000, description := "UOB ONE CASH REBATE BILL REDEMPTION" },
       { account_id := 5, account_name := "Bank Account", entry_type := .credit
         amount := 10000, description := "UOB ONE CASH REBATE BILL REDEMPTION" }] }

/-- C1: every raw statement transaction that resolves successfully
yields a balanced generated transaction (equal debit and credit
totals), and a batch in which every row resolves successfully reports
`is_balanced = true`. -/
theorem balance_invariant (accounts : List (Nat × String))
    (config : AccountRoleConfig) (tx : RawStatementTransaction)
    (g : GeneratedTransaction) (rows : List RawStatementTransaction)
    (hok : generateEntries accounts config tx = .ok g)
    (hall : ∀ r ∈ rows, ∃ gr, generateEntries accounts config r = .ok gr) :
    debitTotal g.postings = creditTotal g.postings
    ∧ (processBatch accounts config rows).result.is_balanced = true := by
  refine ⟨generateEntries_ok_balanced accounts config tx g hok, ?_⟩
  have hb := processRows_balanced accounts config rows
  simp [processBatch, validate, hb]

/-- Witness for `balance_invariant` at the sample purchase row. -/
theorem balance_invariant_witness :
    debitTotal samplePurchaseGenerated.postings
      = creditTotal samplePurchaseGenerated.postings
    ∧ (processBatch sampleAccounts sampleConfig [samplePurchase]).result.is_balanced
      = true :=
  balance_invariant sampleAccounts sampleConfig samplePurchase
    samplePurchaseGenerated [samplePurchase] rfl
    (by
      intro r hr
      rw [List.mem_singleton] at hr
      subst hr
      exact ⟨samplePurchaseGenerated, rfl⟩)

/-- C3: a positive-amount row generates exactly two postings in order —
first a debit of `resolveCategory(category, config)` for the amount,
then a credit of `config.credit_card_account_id` for the same amount. -/
theorem positive_amount_debit_then_credit (accounts : List (Nat × String))
    (config : AccountRoleConfig) (tx : RawStatementTransaction)
    (g : GeneratedTransaction) (hpos : 0 < tx.amount)
    (hok : generateEntries accounts config tx = .ok g) :
    g.postings.map (fun p => (p.account_id, p.entry_type, p.amount))
      = [(resolveCategory tx.category config, EntryType.debit, tx.amount),
         (config.credit_card_account_id, EntryType.credit, tx.amount)] := by
  unfold generateEntries at hok
  rw [if_neg (by omega), if_pos hpos] at hok
  obtain ⟨dn, cn, _, _, rfl⟩ := mkGenerated_ok _ _ _ _ _ hok
  simp [abs_of_pos hpos]

/-- Witness for `positive_amount_debit_then_credit` at the sample
purchase row. -/
theorem positive_amount_debit_then_credit_witness :
    samplePurchaseGenerated.postings.map (fun p => (p.account_id, p.entry_type, p.amount))
      = [(resolveCategory samplePurchase.category sampleConfig, EntryType.debit,
          samplePurchase.amount),
         (sampleConfig.credit_card_account_id, EntryType.credit, samplePurchase.amount)] :=
  positive_amount_debit_then_credit sampleAccounts sampleConfig samplePurchase
    samplePurchaseGenerated (by decide) rfl

/-- C4: a negative-amount row generates a debit of
`config.credit_card_account_id` for `abs(amount)` and a credit for
`abs(amount)` against `config.bank_account_id` when it is configured,
else against `resolveCategory(category, config)`. -/
theorem negative_amount_debit_liability (accounts : List (Nat × String))
    (config : AccountRoleConfig) (tx : RawStatementTransaction)
    (g : GeneratedTransaction) (hneg : tx.amount < 0)
    (hok : generateEntries accounts config tx = .ok g) :
    (∀ b, config.bank_account_id = some b →
      g.postings.map (fun p => (p.account_id, p.entry_type, p.amount))
        = [(config.credit_card_account_id, EntryType.debit, |tx.amount|),
           (b, EntryType.credit, |tx.amount|)])
    ∧ (config.bank_account_id = none →
      g.postings.map (fun p => (p.account_id, p.entry_type, p.amount))
        = [(config.credit_card_account_id, EntryType.debit, |tx.amount|),
           (resolveCategory tx.category config, EntryType.credit, |tx.amount|)]) := by
  unfold generateEntries at hok
  rw [if_neg (by omega), if_neg (by omega)] at hok
  obtain ⟨dn, cn, _, _, rfl⟩ := mkGenerated_ok _ _ _ _ _ hok
  constructor
  · intro b hb
    simp [hb]
  · intro hb
    simp [hb]

/-- Witness for `negative_amount_debit_liability` at the sample refund
row (bank account 5 configured). -/
theorem negative_amount_debit_liability_witness :
    (∀ b, sampleConfig.bank_account_id = some b →
      sampleRefundGenerated.postings.map (fun p => (p.account_id, p.entry_type, p.amount))
        = [(sampleConfig.credit_card_account_id, EntryType.debit, |sampleRefund.amount|),
           (b, EntryType.credit, |sampleRefund.amount|)])
    ∧ (sampleConfig.bank_account_id = none →
      sampleRefundGenerated.postings.map (fun p => (p.account_id, p.entry_type, p.amount))
        = [(sampleConfig.credit_card_account_id, EntryType.debit, |sampleRefund.amount|),
           (resolveCategory sampleRefund.category sampleConfig, EntryType.credit,
            |sampleRefund.amount|)]) :=
  negative_amount_debit_liability sampleAccounts sampleConfig sampleRefund
    sampleRefundGenerated (by decide) rfl

/-- Inserting a zero-amount row anywhere in a batch leaves the collected
transactions and the reported per-row failures unchanged and increments
the skipped count by one. -/
theorem processRows_insert_zero (accounts : List (Nat × String))
    (config : AccountRoleConfig) (z : RawStatementTransaction)
    (hz : z.amount = 0) :
    ∀ xs ys, processRows accounts config (xs ++ z :: ys)
      = ((processRows accounts config (xs ++ ys)).1,
         (processRows accounts config (xs ++ ys)).2.1 + 1,
         (processRows accounts config (xs ++ ys)).2.2) := by
  have hzgen : generateEntries accounts config z = .error .DegenerateTransaction := by
    unfold generateEntries
    rw [if_pos hz]
  intro xs
  induction xs with
  | nil =>
    intro ys
    simp only [List.nil_append]
    conv_lhs => rw [processRows]
    simp [hzgen]
  | cons x xs ih =>
    intro ys
    simp only [List.cons_append]
    unfold processRows
    rw [ih ys]
    cases hx : generateEntries accounts config x with
    | ok g => simp [hx]
    | error e =>
      cases e with
      | DegenerateTransaction => simp [hx]
      | AccountNotFound id => simp [hx]

/-- C9: a zero-amount row produces no postings (`DegenerateTransaction`,
so no generated transaction is collected for it), is reported as skipped
(the skipped count increments, distinguishing it from processed rows),
the batch continues with the remaining rows, and the `BatchResult` —
including `is_balanced` — over the remaining rows is unaffected. -/
theorem zero_amount_row_skipped (accounts : List (Nat × String))
    (config : AccountRoleConfig) (xs ys : List RawStatementTransaction)
    (z : RawStatementTransaction) (hz : z.amount = 0) :
    generateEntries accounts config z = .error .DegenerateTransaction
    ∧ (processBatch accounts config (xs ++ z :: ys)).result
        = (processBatch accounts config (xs ++ ys)).result
    ∧ (processBatch accounts config (xs ++ z :: ys)).skipped
        = (processBatch accounts config (xs ++ ys)).skipped + 1
    ∧ (processBatch accounts config (xs ++ z :: ys)).row_errors
        = (processBatch accounts config (xs ++ ys)).row_errors := by
  have hzgen : generateEntries accounts config z = .error .DegenerateTransaction := by
    unfold generateEntries
    rw [if_pos hz]
  have hrows := processRows_insert_zero accounts config z hz xs ys
  exact ⟨hzgen, by simp [processBatch, hrows], by simp [processBatch, hrows],
    by simp [processBatch, hrows]⟩

/-- A zero-amount row. -/
def sampleZeroRow : RawStatementTransaction :=
  { description := "ZERO AMOUNT ROW"
    transaction_date := "2025-08-07"
    amount := 0
    category := none }

/-- Witness for `zero_amount_row_skipped` with the zero row inserted
after the sample purchase. -/
theorem zero_amount_row_skipped_witness :
    generateEntries sampleAccounts sampleConfig sampleZeroRow
      = .error .DegenerateTransaction
    ∧ (processBatch sampleAccounts sampleConfig
        ([samplePurchase] ++ sampleZeroRow :: [])).result
        = (processBatch sampleAccounts sampleConfig ([samplePurchase] ++ [])).result
    ∧ (processBatch sampleAccounts sampleConfig
        ([samplePurchase] ++ sampleZeroRow :: [])).skipped
        = (processBatch sampleAccounts sampleConfig ([samplePurchase] ++ [])).skipped + 1
    ∧ (processBatch sampleAccounts sampleConfig
        ([samplePurchase] ++ sampleZeroRow :: [])).row_errors
        = (processBatch sampleAccounts sampleConfig ([samplePurchase] ++ [])).row_errors :=
  zero_amount_row_skipped sampleAccounts sampleConfig [samplePurchase] []
    sampleZeroRow rfl

/-- A persisted ledger entry, owned by the external ledger store. -/
structure PersistedEntry where
  account_id : Nat
  amount : ℚ
  entry_type : EntryType
  description : String
deriving DecidableEq, Repr

/-- A persisted ledger transaction, owned by the external ledger store. -/
structure PersistedTransaction where
  user_id : Nat
  description : String
  transaction_date : String
  entries : List PersistedEntry
deriving DecidableEq, Repr

/-- The durable ledger store, the sequence of persisted transactions. -/
abbrev LedgerStore : Type := List PersistedTransaction

/-- Modelled from the spec: the part of the batch-create handler (POST
`/transactions/batch`, behind `ApiClient.batchCreateTransactions`) that
attempts each row's creation in turn inside one unit of work; `createOne`
is the per-row persistence step, which may fail (`none`). The handler
itself is not in the source tree. -/
def attemptRows (createOne : LedgerStore → CreateTransactionRequest → Option LedgerStore) :
    LedgerStore → List CreateTransactionRequest → Option LedgerStore
  | s, [] => some s
  | s, r :: rest =>
    match createOne s r with
    | some s2 => attemptRows createOne s2 rest
    | none => none

/-- Modelled from the spec: the batch-create endpoint (§4.5 commit),
which is not in the source tree — opens a single atomic unit of work,
creates the rows one by one, commits the working store if all succeed,
and rolls the unit of work back on any failure. Returns the response
together with the durable store after the call. -/
def batchCreateTransactions
    (createOne : LedgerStore → CreateTransactionRequest → Option LedgerStore)
    (store : LedgerStore) (rows : List CreateTransactionRequest) :
    Except String LedgerStore × LedgerStore :=
  match attemptRows createOne store rows with
  | some s2 => (.ok s2, s2)
  | none => (.error "batch creation failed; rolled back", store)

/-- If some row of the batch always fails to persist, the attempt phase
fails as a whole. -/
theorem attemptRows_fails_of_mem
    (createOne : LedgerStore → CreateTransactionRequest → Option LedgerStore)
    (r : CreateTransactionRequest) (hfail : ∀ s, createOne s r = none) :
    ∀ rows s, r ∈ rows → attemptRows createOne s rows = none := by
  intro rows
  induction rows with
  | nil =>
    intro s hmem
    cases hmem
  | cons x rest ih =>
    intro s hmem
    unfold attemptRows
    rcases List.mem_cons.mp hmem with hx | hrest
    · subst hx
      rw [hfail s]
    · cases hc : createOne s x with
      | some s2 => exact ih s2 hrest
      | none => rfl

/-- C6: if the creation of any individual transaction fails partway
through a commit (create) call, the entire unit of work is rolled back —
the call reports failure and the durable store after the call is exactly
the store before it, so zero persisted transactions and zero persisted
entries remain from that call. -/
theorem batch_create_atomic_rollback
    (createOne : LedgerStore → CreateTransactionRequest → Option LedgerStore)
    (store : LedgerStore) (rows : List CreateTransactionRequest)
    (r : CreateTransactionRequest) (hmem : r ∈ rows)
    (hfail : ∀ s, createOne s r = none) :
    (∃ msg, (batchCreateTransactions createOne store rows).1 = .error msg)
    ∧ (batchCreateTransactions createOne store rows).2 = store := by
  have hnone := attemptRows_fails_of_mem createOne r hfail rows store hmem
  unfold batchCreateTransactions
  rw [hnone]
  exact ⟨⟨"batch creation failed; rolled back", rfl⟩, rfl⟩

/-- A batch row that persists successfully. -/
def sampleRowOne : CreateTransactionRequest :=
  { user_id := 7, description := "ROW ONE", transaction_date := "2025-08-06", entries := [] }

/-- A batch row on which the per-row persistence step always fails. -/
def sampleRowFailing : CreateTransactionRequest :=
  { user_id := 7, description := "FAIL ROW", transaction_date := "2025-08-07", entries := [] }

/-- A batch row that persists successfully. -/
def sampleRowThree : CreateTransactionRequest :=
  { user_id := 7, description := "ROW THREE", transaction_date := "2025-08-08", entries := [] }

/-- A per-row persistence step that appends the row to the store but
fails on the row described "FAIL ROW" (forcing a failure on the second
of three rows). -/
def sampleCreateOne (s : LedgerStore) (r : CreateTransactionRequest) : Option LedgerStore :=
  if r.description = "FAIL ROW" then none
  else
    some (s ++ [{ user_id := r.user_id
                  description := r.description
                  transaction_date := r.transaction_date
                  entries := r.entries.map fun e =>
                    { account_id := e.account_id
                      amount := e.amount
                      entry_type := e.entry_type
                      description := e.description } }])

/-- Witness for `batch_create_atomic_rollback`: forcing a failure on the
second of three rows leaves the store exactly as before the call. -/
theorem batch_create_atomic_rollback_witness :
    (∃ msg, (batchCreateTransactions sampleCreateOne []
        [sampleRowOne, sampleRowFailing, sampleRowThree]).1 = .error msg)
    ∧ (batchCreateTransactions sampleCreateOne []
        [sampleRowOne, sampleRowFailing, sampleRowThree]).2 = [] :=
  batch_create_atomic_rollback sampleCreateOne []
    [sampleRowOne, sampleRowFailing, sampleRowThree] sampleRowFailing
    (List.mem_cons_of_mem _ (List.mem_cons_self _ _))
    (fun s => by simp [sampleCreateOne, sampleRowFailing])

/-- Modelled from the spec: effect of the backend statement-entries
endpoints on the durable store; the handlers are not in the source tree.
Per the repository's own API documentation, the create-entries endpoint
"creates and persists ledger entries from a statement to the database"
(the generated transactions are appended to the store), while the
prepare-entries endpoint previews "without persisting them to the
database" (the store is unchanged). -/
def statementEndpointStoreAfter (endpoint : String) (store : LedgerStore)
    (generated : List PersistedTransaction) : LedgerStore :=
  if endpoint = "/statements/create-entries" then store ++ generated
  else store

/-- The persisted transaction generated for the documented sample
statement row. -/
def samplePersistedPurchase : PersistedTransaction :=
  { user_id := 7
    description := "PAYPAL *YAOHUBA666 4029357733"
    transaction_date := "2025-08-06"
    entries :=
      [{ account_id := 21, amount := 2431 / 100, entry_type := .debit
         description := "PAYPAL *YAOHUBA666 4029357733" },
       { account_id := 10, amount := 2431 / 100, entry_type := .credit
         description := "PAYPAL *YAOHUBA666 4029357733" }] }

/-- C7: a preview (prepare) call does change durable state — the
client's preview path (`ApiClient.prepareEntries`, invoked by the
preview stage as "Get preview (dry run)") posts to
`/statements/create-entries`, the endpoint that creates and persists
entries, so running a preview of a one-row statement against an empty
store leaves a persisted transaction behind. -/
theorem preview_call_changes_durable_state :
    statementEndpointStoreAfter ApiClient.prepareEntriesEndpoint []
        [samplePersistedPurchase] = [samplePersistedPurchase]
    ∧ statementEndpointStoreAfter ApiClient.prepareEntriesEndpoint []
        [samplePersistedPurchase] ≠ ([] : LedgerStore) := by
  constructor
  · simp [statementEndpointStoreAfter, ApiClient.prepareEntriesEndpoint]
  · simp [statementEndpointStoreAfter, ApiClient.prepareEntriesEndpoint]
